import Mathlib

/-!
# stripe-go: checkout-session decoding and the order-return client

A shallow embedding of

* `checkout_session.go` : the `CheckoutSession` record and its custom
  `UnmarshalJSON` (bare identifier or expanded object);
* `orderreturn/client.go` : `Client.Get`, the page-fetch closure built by
  `Client.List`, and the accessor `Iter.OrderReturn`.

Conventions.  A Go pointer `*T` is `Option T` (`none` is the nil pointer) and a
Go `error` is `Option Err` (`none` is nil).  In `checkout_session.go` a `[]byte`
is turned into a `string`, which copies the bytes, so both are `List UInt8`
there; a slice field of `CheckoutSession` is `Option (List T)`, the nil slice
being its zero value.  In `orderreturn/client.go` strings are only passed on
and compared, they are `String`; the slice `Data` is only ranged over, it is a
`List`.  `int64` fields are never computed with, they are `Int`.  The backend
has effects: its calls take the state of the world and return the new one.
-/

namespace Stripe

/-- Go `[]byte`. -/
abbrev Bytes := List UInt8

/-- Go `string`: an immutable sequence of bytes. -/
abbrev GoString := List UInt8

/-! ## `checkout_session.go` -/

section CheckoutSession

/- Resource types declared in other files of the package; `CheckoutSession`
only stores pointers to them. -/
variable (Customer PaymentIntent SetupIntent Subscription Plan SKU : Type)

/-- The Go struct `CheckoutSessionDisplayItemCustom`. -/
structure CheckoutSessionDisplayItemCustom where
  Description : GoString
  Images : Option (List GoString)
  Name : GoString

/-- The Go struct `CheckoutSessionDisplayItem`; the field `Type` is `Typ`
here. -/
structure CheckoutSessionDisplayItem where
  Amount : Int
  Currency : GoString
  Custom : Option CheckoutSessionDisplayItemCustom
  Quantity : Int
  Plan : Option Plan
  SKU : Option SKU
  Typ : GoString

/-- The Go struct `CheckoutSession`, field for field.  The named string types
(`CheckoutSessionMode`, `CheckoutSessionSubmitType`) are strings. -/
structure CheckoutSession where
  CancelURL : GoString
  ClientReferenceID : GoString
  Customer : Option Customer
  CustomerEmail : GoString
  Deleted : Bool
  DisplayItems : Option (List (Option (CheckoutSessionDisplayItem Plan SKU)))
  ID : GoString
  Livemode : Bool
  Locale : GoString
  Mode : GoString
  Object : GoString
  PaymentIntent : Option PaymentIntent
  PaymentMethodTypes : Option (List GoString)
  SetupIntent : Option SetupIntent
  Subscription : Option Subscription
  SubmitType : GoString
  SuccessURL : GoString

end CheckoutSession

section UnmarshalJSON

variable {Customer PaymentIntent SetupIntent Subscription Plan SKU : Type}

/-- The local type `session` of `UnmarshalJSON`: `type session CheckoutSession`
has the layout of `CheckoutSession` and none of its methods. -/
abbrev session (Customer PaymentIntent SetupIntent Subscription Plan SKU : Type) :=
  CheckoutSession Customer PaymentIntent SetupIntent Subscription Plan SKU

/-- The zero value of `CheckoutSession` (`CheckoutSession{}`, `var v session`). -/
def CheckoutSession.zero :
    CheckoutSession Customer PaymentIntent SetupIntent Subscription Plan SKU where
  CancelURL := []
  ClientReferenceID := []
  Customer := none
  CustomerEmail := []
  Deleted := false
  DisplayItems := none
  ID := []
  Livemode := false
  Locale := []
  Mode := []
  Object := []
  PaymentIntent := none
  PaymentMethodTypes := none
  SetupIntent := none
  Subscription := none
  SubmitType := []
  SuccessURL := []

/-- The method `CheckoutSession.UnmarshalJSON` of `checkout_session.go`.

`ParseID` is the package helper (`id, ok := ParseID(data)`), `jsonUnmarshal`
is `json.Unmarshal(data, &v)` on the shadow type: it is given the value of `v`
before the call and returns the error together with the value of `v` after
it.  The result is the returned error and the value of `*p` afterwards. -/
def CheckoutSession.UnmarshalJSON {Err : Type}
    (ParseID : Bytes → GoString × Bool)
    (jsonUnmarshal : Bytes →
      session Customer PaymentIntent SetupIntent Subscription Plan SKU →
      Option Err × session Customer PaymentIntent SetupIntent Subscription Plan SKU)
    (p : CheckoutSession Customer PaymentIntent SetupIntent Subscription Plan SKU)
    (data : Bytes) :
    Option Err × CheckoutSession Customer PaymentIntent SetupIntent Subscription Plan SKU :=
  match ParseID data with
  | (id, true) => (none, { p with ID := id })
  | (_, false) =>
    match jsonUnmarshal data CheckoutSession.zero with
    | (some err, _) => (some err, p)
    | (none, v) => (none, v)

/-- Two checkout sessions agree on every field other than `ID`. -/
def CheckoutSession.sameExceptID
    (a b : CheckoutSession Customer PaymentIntent SetupIntent Subscription Plan SKU) : Prop :=
  a.CancelURL = b.CancelURL ∧ a.ClientReferenceID = b.ClientReferenceID ∧
  a.Customer = b.Customer ∧ a.CustomerEmail = b.CustomerEmail ∧
  a.Deleted = b.Deleted ∧ a.DisplayItems = b.DisplayItems ∧
  a.Livemode = b.Livemode ∧ a.Locale = b.Locale ∧ a.Mode = b.Mode ∧
  a.Object = b.Object ∧ a.PaymentIntent = b.PaymentIntent ∧
  a.PaymentMethodTypes = b.PaymentMethodTypes ∧ a.SetupIntent = b.SetupIntent ∧
  a.Subscription = b.Subscription ∧ a.SubmitType = b.SubmitType ∧
  a.SuccessURL = b.SuccessURL

/-- Every field other than `ID` holds the zero value of its type. -/
def CheckoutSession.nonIDZero
    (a : CheckoutSession Customer PaymentIntent SetupIntent Subscription Plan SKU) : Prop :=
  a.CancelURL = [] ∧ a.ClientReferenceID = [] ∧
  a.Customer = none ∧ a.CustomerEmail = [] ∧
  a.Deleted = false ∧ a.DisplayItems = none ∧
  a.Livemode = false ∧ a.Locale = [] ∧ a.Mode = [] ∧
  a.Object = [] ∧ a.PaymentIntent = none ∧
  a.PaymentMethodTypes = none ∧ a.SetupIntent = none ∧
  a.Subscription = none ∧ a.SubmitType = [] ∧
  a.SuccessURL = []

/-- The bare-ID state: `ID` populated and every other field zero-valued. -/
def CheckoutSession.bareIDState
    (a : CheckoutSession Customer PaymentIntent SetupIntent Subscription Plan SKU) : Prop :=
  a.ID ≠ [] ∧ a.nonIDZero

/-- The expanded state: some field other than `ID` is not zero-valued. -/
def CheckoutSession.expandedState
    (a : CheckoutSession Customer PaymentIntent SetupIntent Subscription Plan SKU) : Prop :=
  ¬ a.nonIDZero

end UnmarshalJSON

/-- Modelled from the spec: the package helper `ParseID` (its file is not
among the sources).  "attempt to parse the bytes as a bare identifier (a JSON
string value formatted as `"<id>"` with no other object structure)": the input
opens with a double quote and closes with another one, and the identifier is
what stands between the two. -/
def ParseID (data : Bytes) : GoString × Bool :=
  if 2 ≤ data.length ∧ data.head? = some 0x22 ∧ data.getLast? = some 0x22 then
    ((data.drop 1).dropLast, true)
  else
    ([], false)

/-- A sample `json.Unmarshal` for the shadow type, used where a concrete
decoder is needed: it accepts the two documents `{}` and `{"livemode":true}`
and rejects everything else with the error `"invalid"`. -/
def sampleUnmarshal (data : Bytes) (v : session Unit Unit Unit Unit Unit Unit) :
    Option String × session Unit Unit Unit Unit Unit Unit :=
  if data = [0x7b, 0x7d] then (none, v)
  else if data = [0x7b, 0x22, 0x6c, 0x69, 0x76, 0x65, 0x6d, 0x6f, 0x64, 0x65, 0x22, 0x3a,
      0x74, 0x72, 0x75, 0x65, 0x7d] then (none, { v with Livemode := true })
  else (some "invalid", v)


/-! ## The backend collaborator, as `orderreturn/client.go` uses it -/

/-- The form-encoded request body (`form.Values`): key/value pairs in order. -/
abbrev Values := List (String × String)

/-- Modelled from the spec: the metadata of the `list` envelope, whose
declaration is in a file that is not among the sources ("`has_more` (boolean),
and paging cursor metadata"). -/
structure ListMeta where
  HasMore : Bool
  TotalCount : Nat
  URL : String
deriving DecidableEq, Repr

/-- The zero value `ListMeta{}`. -/
def ListMeta.zero : ListMeta := { HasMore := false, TotalCount := 0, URL := "" }

/-- The Go struct `OrderReturnList` as `client.go` reads it: the embedded
`ListMeta` and the field `Data` of type `[]*OrderReturn`. -/
structure OrderReturnList (OrderReturn : Type) where
  ListMeta : ListMeta
  Data : List (Option OrderReturn)

/-- The zero value `OrderReturnList{}`. -/
def OrderReturnList.zero {OrderReturn : Type} : OrderReturnList OrderReturn :=
  { ListMeta := ListMeta.zero, Data := [] }

/-- The `Backend` interface, restricted to the two calls `orderreturn/client.go`
makes: `Call` with an `*OrderReturn` as result target, `CallRaw` with an
`*OrderReturnList`.  A call reads the target, may write to it, and may change
the state `σ` of the world; it returns the error, the target afterwards and
the new state. -/
structure Backend (σ Err OrderReturn Params ListParams : Type) where
  Call : String → String → String → Option Params → OrderReturn → σ →
    Option Err × OrderReturn × σ
  CallRaw : String → String → String → Values → Option ListParams →
    OrderReturnList OrderReturn → σ → Option Err × OrderReturnList OrderReturn × σ

/-- One call received by a backend, with the arguments it was given. -/
inductive CallRecord (Params ListParams : Type) where
  | call (method path key : String) (params : Option Params)
  | callRaw (method path key : String) (body : Values) (params : Option ListParams)

/-- A backend that behaves as `B` and appends every call it receives to a
log kept beside the state of `B`. -/
def Backend.recorded {σ Err OrderReturn Params ListParams : Type}
    (B : Backend σ Err OrderReturn Params ListParams) :
    Backend (σ × List (CallRecord Params ListParams)) Err OrderReturn Params ListParams where
  Call := fun method path key params v st =>
    match B.Call method path key params v st.1 with
    | (err, v', s') => (err, v', (s', st.2 ++ [CallRecord.call method path key params]))
  CallRaw := fun method path key body params v st =>
    match B.CallRaw method path key body params v st.1 with
    | (err, v', s') => (err, v', (s', st.2 ++ [CallRecord.callRaw method path key body params]))

/-- The value of `net/http`'s `MethodGet`. -/
def MethodGet : String := "GET"

/-- A dynamically typed value (`interface{}`) as the list iterator holds it:
the nil interface, a `*OrderReturn` (which may be the nil pointer), or a value
of another dynamic type. -/
inductive Iface (OrderReturn : Type) where
  | nil
  | orderReturn (p : Option OrderReturn)
  | other (typeName : String)

/-- The page-fetch function an iterator is configured with (`stripe.Query`):
`func(*Params, *form.Values) ([]interface{}, ListMeta, error)`. -/
abbrev Query (σ Err OrderReturn ListParams : Type) :=
  Option ListParams → Values → σ → (List (Iface OrderReturn) × ListMeta × Option Err) × σ

/-- The list parameters handed to `List`, as the iterator uses them: the
embedded `*Params` it passes to every fetch and their form encoding. -/
structure ListParamsContainer (ListParams : Type) where
  params : Option ListParams
  formValues : Values

/-! ## The list iterator (`stripe.Iter`), section 4.3 of the specification -/

/-- The states of the iterator's state machine.  `advancing` lasts only while
a fetch is in flight inside `Next`. -/
inductive IterState where
  | ready
  | advancing
  | exhausted
  | errored
deriving DecidableEq, Repr

/-- Modelled from the spec: the generic list iterator `stripe.Iter`, whose file
is not among the sources.  It holds the current item, the stored error, the
unread items of the page in memory, whether the API indicated that more data
is available, the state of the state machine, and what a fetch needs: the
page-fetch function, the parameters and form values, and the function reading
the identifier of an item (the cursor is "the last-seen item's identifier"). -/
structure Iter (σ Err OrderReturn ListParams : Type) where
  cur : Iface OrderReturn
  err : Option Err
  values : List (Iface OrderReturn)
  more : Bool
  state : IterState
  params : Option ListParams
  formValues : Values
  query : Query σ Err OrderReturn ListParams
  itemID : Iface OrderReturn → Option String

/-- The wire name of the cursor parameter.  The specification does not fix
it; the API calls it `starting_after`. -/
def cursorKey : String := "starting_after"

/-- Sets `key` to `value` in form values: the first pair with that key is
replaced, or the pair is appended. -/
def Values.set : Values → String → String → Values
  | [], key, value => [(key, value)]
  | (k, v) :: rest, key, value =>
    if k = key then (key, value) :: rest else (k, v) :: Values.set rest key value

section Iter

variable {σ ε ρ ListParams : Type}

/-- Modelled from the spec: `stripe.GetIter`.  "`List(params)`: does not itself
perform I/O; returns an iterator configured with a closure that performs one
page fetch": the iterator starts with no item, no error and no page in
memory, and with the more-data mark set, so that the first `Next` fetches the
first page. -/
def GetIter (container : ListParamsContainer ListParams)
    (itemID : Iface ρ → Option String)
    (query : Query σ ε ρ ListParams) : Iter σ ε ρ ListParams where
  cur := Iface.nil
  err := none
  values := []
  more := true
  state := IterState.ready
  params := container.params
  formValues := container.formValues
  query := query
  itemID := itemID

/-- Modelled from the spec: `Iter.Current`, "the item at the iterator's current
position". -/
def Iter.Current (it : Iter σ ε ρ ListParams) : Iface ρ := it.cur

/-- Modelled from the spec: `Iter.Err`, "returns the stored error, or none". -/
def Iter.Err (it : Iter σ ε ρ ListParams) : Option ε := it.err

/-- The form values of the next fetch: the stored ones with the cursor set to
the identifier of the last-seen item, when there is one. -/
def Iter.fetchValues (it : Iter σ ε ρ ListParams) : Values :=
  match it.itemID it.cur with
  | some id => Values.set it.formValues cursorKey id
  | none => it.formValues

/-- Modelled from the spec: `Iter.Next`.  "If the current in-memory page still
has unread items, advances to the next item and returns true.  If the page is
exhausted but the API indicated more data is available, performs a page fetch
using the stored cursor and continues; on fetch failure, transitions to
`Errored`, stores the error, and returns false.  When no more pages are
available, transitions to `Exhausted` and returns false."  An exhausted or
errored iterator stays so ("single-pass, not restartable").

One call makes at most one page fetch ("each client operation performs at most
one network round trip").  After a successful fetch it continues with the page
it got: it advances to the first item of that page and returns true; when that
page is empty it has no item to advance to and returns false, exhausted if no
more data is announced and still ready otherwise. -/
def Iter.Next (it : Iter σ ε ρ ListParams) (s : σ) : Bool × Iter σ ε ρ ListParams × σ :=
  match it.state with
  | IterState.exhausted => (false, it, s)
  | IterState.errored => (false, it, s)
  | _ =>
    match it.values with
    | v :: rest => (true, { it with cur := v, values := rest, state := IterState.ready }, s)
    | [] =>
      if it.more then
        match it.query it.params it.fetchValues s with
        | ((_, _, some e), s') =>
          (false, { it with err := some e, state := IterState.errored,
                            formValues := it.fetchValues }, s')
        | ((v :: rest, listMeta, none), s') =>
          (true, { it with cur := v, values := rest, more := listMeta.HasMore,
                           state := IterState.ready, formValues := it.fetchValues }, s')
        | (([], listMeta, none), s') =>
          if listMeta.HasMore then
            (false, { it with values := [], more := true, state := IterState.ready,
                              formValues := it.fetchValues }, s')
          else
            (false, { it with values := [], more := false, state := IterState.exhausted,
                              formValues := it.fetchValues }, s')
      else
        (false, { it with state := IterState.exhausted }, s)

/-- Modelled from the spec: the identifier of a listed item, which the iterator
stores as cursor ("the last-seen item's identifier"); `idOf` reads the
identifier of an order return.  The nil interface and the nil pointer have
none. -/
def listItemID (idOf : ρ → String) : Iface ρ → Option String
  | Iface.orderReturn (some r) => some (idOf r)
  | _ => none

/-- The form values of the fetch that follows `page`, when `fv` were those of
the fetch that returned it: the cursor is the identifier of the last item of
`page`; after an empty page they are unchanged. -/
def nextValues (idOf : ρ → String) (fv : Values) (page : List ρ) : Values :=
  match page.getLast? with
  | some r => Values.set fv cursorKey (idOf r)
  | none => fv

end Iter

/-! ## `orderreturn/client.go` -/

namespace orderreturn

section Client

variable {σ ε ρ Params ListParams : Type}

/-- The Go struct `Client`: a backend and an API key. -/
structure Client (σ ε ρ Params ListParams : Type) where
  B : Backend σ ε ρ Params ListParams
  Key : String

/-- The method `Client.Get`.  `FormatURLPath` is the package helper that substitutes the
identifier into the path template; `0` is the zero value `OrderReturn{}`.  The
result is the returned pointer, the returned error and the state of the world
afterwards. -/
def Client.Get [Zero ρ] (FormatURLPath : String → List String → String)
    (c : Client σ ε ρ Params ListParams) (id : String) (params : Option Params)
    (s : σ) : (Option ρ × Option ε) × σ :=
  let path := FormatURLPath "/v1/order_returns/%s" [id]
  let orderReturn : ρ := 0
  match c.B.Call MethodGet path c.Key params orderReturn s with
  | (err, orderReturn, s') => ((some orderReturn, err), s')

/-- The closure `Client.List` hands to `GetIter`: one page fetch. -/
def Client.listQuery (c : Client σ ε ρ Params ListParams) :
    Query σ ε ρ ListParams :=
  fun p b s =>
    let list : OrderReturnList ρ := OrderReturnList.zero
    match c.B.CallRaw MethodGet "/v1/order_returns" c.Key b p list s with
    | (err, list, s') =>
      let ret := list.Data.map Iface.orderReturn
      ((ret, list.ListMeta, err), s')

set_option linter.dupNamespace false in
/-- The Go struct `orderreturn.Iter`, which embeds `*stripe.Iter`. -/
structure Iter (σ ε ρ ListParams : Type) where
  Iter : Stripe.Iter σ ε ρ ListParams

/-- The method `Client.List`.  `itemID` reads the identifier of a listed item for the
iterator. -/
def Client.List (itemID : Iface ρ → Option String)
    (c : Client σ ε ρ Params ListParams)
    (listParams : ListParamsContainer ListParams) : Iter σ ε ρ ListParams :=
  ⟨GetIter listParams itemID c.listQuery⟩

/-- A run-time panic of the Go program. -/
inductive Panic where
  | interfaceConversion
deriving DecidableEq, Repr

/-- The accessor `Iter.OrderReturn`: the type assertion `i.Current().(*stripe.OrderReturn)`.
The one-result form of a type assertion panics unless the dynamic type of the
value is `*OrderReturn`; on the nil interface it panics as well. -/
def Iter.OrderReturn (i : orderreturn.Iter σ ε ρ ListParams) :
    Except Panic (Option ρ) :=
  match i.Iter.Current with
  | Iface.orderReturn p => Except.ok p
  | Iface.nil => Except.error Panic.interfaceConversion
  | Iface.other _ => Except.error Panic.interfaceConversion

/-- What a caller sees after one call of `Next`: its result, `Err()` and
`OrderReturn()`. -/
structure Observation (ε ρ : Type) where
  next : Bool
  err : Option ε
  current : Except Panic (Option ρ)

/-- Calls `Next` `n` times in a row on `i`, reading `Err()` and `OrderReturn()`
after each call. -/
def Iter.run : Nat → orderreturn.Iter σ ε ρ ListParams → σ →
    List (Observation ε ρ) × orderreturn.Iter σ ε ρ ListParams × σ
  | 0, i, s => ([], i, s)
  | n + 1, i, s =>
    match i.Iter.Next s with
    | (b, it, s') =>
      match Iter.run n ⟨it⟩ s' with
      | (obs, i', s'') => (⟨b, it.Err, Iter.OrderReturn ⟨it⟩⟩ :: obs, i', s'')

/-- The backend `B` serves the listing `page :: rest` to the client's page
fetches, starting in state `s` with the request body `fv`: the fetch with body
`fv` succeeds with `page`, with `has_more` set exactly when pages follow, and
from the state it leaves the backend serves the pages that follow to the
requests whose cursor is the last item served. -/
def serves (B : Backend σ ε ρ Params ListParams) (key : String) (p : Option ListParams)
    (idOf : ρ → String) : Values → σ → List ρ → List (List ρ) → Prop
  | fv, s, page, [] =>
    ∃ (m : ListMeta) (s' : σ),
      B.CallRaw "GET" "/v1/order_returns" key fv p OrderReturnList.zero s
        = (none, { ListMeta := m, Data := page.map some }, s') ∧
      m.HasMore = false
  | fv, s, page, next :: rest =>
    ∃ (m : ListMeta) (s' : σ),
      B.CallRaw "GET" "/v1/order_returns" key fv p OrderReturnList.zero s
        = (none, { ListMeta := m, Data := page.map some }, s') ∧
      m.HasMore = true ∧
      serves B key p idOf (nextValues idOf fv page) s' next rest

end Client

/-- A mock backend for listings: its state is the list of pages it has still
to serve.  `CallRaw` writes the next page to the target, with `has_more` set
when pages remain after it; with no page left it leaves the target as it is.
`Call` leaves the target as it is.  Neither fails. -/
def mockBackend (Err OrderReturn Params ListParams : Type) :
    Backend (List (List OrderReturn)) Err OrderReturn Params ListParams where
  Call := fun _ _ _ _ v s => (none, v, s)
  CallRaw := fun _ _ _ _ _ v s =>
    match s with
    | [] => (none, v, [])
    | page :: rest =>
      (none, { ListMeta := { HasMore := !rest.isEmpty, TotalCount := 0, URL := "/v1/order_returns" },
               Data := page.map some }, rest)

/-- A mock backend that serves `page` with `has_more` set on the first
`CallRaw` and fails with `e` on every later one without writing to the target;
its state counts the calls of `CallRaw`.  `Call` fails with `e` without writing
to the target. -/
def failingBackend {Err OrderReturn : Type} (Params ListParams : Type)
    (page : List OrderReturn) (e : Err) :
    Backend Nat Err OrderReturn Params ListParams where
  Call := fun _ _ _ _ v s => (some e, v, s)
  CallRaw := fun _ _ _ _ _ v s =>
    match s with
    | 0 => (none, { ListMeta := { HasMore := true, TotalCount := 0, URL := "/v1/order_returns" },
                    Data := page.map some }, 1)
    | n + 1 => (some e, v, n + 2)

end orderreturn


/-- The page a cursor-paged listing of `pages` serves after the item with
identifier `id`: the page that follows the first page whose last item has that
identifier, and whether pages follow it. -/
def orderreturn.pageAfter {ρ : Type} (idOf : ρ → String) :
    List (List ρ) → String → Option (List ρ × Bool)
  | [], _ => none
  | page :: rest, id =>
    if page.getLast?.map idOf = some id then
      match rest with
      | [] => none
      | next :: rest' => some (next, !rest'.isEmpty)
    else orderreturn.pageAfter idOf rest id

/-- A mock backend that pages by cursor, as the API does.  `CallRaw` reads the
cursor in the request body: without one it serves the first page, with one the
page after the item of that identifier, and it fails with `"invalid cursor"`
when there is no such page.  From call number `failFrom` on it fails with
`"timeout"` instead.  Its state counts the calls of `CallRaw`; a failed call
does not write to the target.  `Call` leaves the target as it is. -/
def orderreturn.cursorBackend {ρ : Type} (Params ListParams : Type) (idOf : ρ → String)
    (pages : List (List ρ)) (failFrom : Option Nat) :
    Backend Nat String ρ Params ListParams where
  Call := fun _ _ _ _ v s => (none, v, s)
  CallRaw := fun _ _ _ body _ v n =>
    if failFrom.any (fun k => decide (k ≤ n)) then (some "timeout", v, n + 1)
    else
      match body.lookup cursorKey with
      | none =>
        match pages with
        | [] => (some "invalid cursor", v, n + 1)
        | page :: rest =>
          (none, { ListMeta := { HasMore := !rest.isEmpty, TotalCount := 0,
                                 URL := "/v1/order_returns" },
                   Data := page.map some }, n + 1)
      | some id =>
        match orderreturn.pageAfter idOf pages id with
        | none => (some "invalid cursor", v, n + 1)
        | some (page, more) =>
          (none, { ListMeta := { HasMore := more, TotalCount := 0,
                                 URL := "/v1/order_returns" },
                   Data := page.map some }, n + 1)

/-- A checkout session with other fields than `ID` set, as a target that has
been decoded into before. -/
def sampleSession : CheckoutSession Unit Unit Unit Unit Unit Unit :=
  { (CheckoutSession.zero : CheckoutSession Unit Unit Unit Unit Unit Unit) with
    ID := [0x6f, 0x6c, 0x64], Livemode := true, Customer := some (), Mode := [0x73] }

/-- A small order-return record for concrete runs; the Go struct `OrderReturn`
is declared in a file that is not among the sources. -/
structure SampleOrderReturn where
  ID : String
  Amount : Int
deriving DecidableEq, Repr

instance : Zero SampleOrderReturn := ⟨{ ID := "", Amount := 0 }⟩

/-- The identifier of a listed item, for the iterator's cursor. -/
def sampleItemID : Iface SampleOrderReturn → Option String
  | Iface.orderReturn (some r) => some r.ID
  | _ => none

/-- A sample `FormatURLPath` for one parameter: the template up to `%s`, then
the parameter. -/
def sampleFormatURLPath (format : String) (params : List String) : String :=
  (format.dropRight 2) ++ String.join params

/-! ## Theorems: `CheckoutSession.UnmarshalJSON` -/

section UnmarshalJSONTheorems

variable {Customer PaymentIntent SetupIntent Subscription Plan SKU Err : Type}

/-- C1: whenever `ParseID(data)` succeeds with `id`, `UnmarshalJSON` returns no
error, the target's `ID` is `id` afterwards and every other field of the
target is what it was before; decoding into a zero-valued `CheckoutSession`
gives `ID = id` and every other field zero-valued. -/
theorem unmarshalJSON_bare_id
    (ParseID : Bytes → GoString × Bool)
    (jsonUnmarshal : Bytes →
      session Customer PaymentIntent SetupIntent Subscription Plan SKU →
      Option Err × session Customer PaymentIntent SetupIntent Subscription Plan SKU)
    (p : CheckoutSession Customer PaymentIntent SetupIntent Subscription Plan SKU)
    (data : Bytes) (id : GoString) (h : ParseID data = (id, true)) :
    (CheckoutSession.UnmarshalJSON ParseID jsonUnmarshal p data).1 = none ∧
    (CheckoutSession.UnmarshalJSON ParseID jsonUnmarshal p data).2.ID = id ∧
    (CheckoutSession.UnmarshalJSON ParseID jsonUnmarshal p data).2.sameExceptID p ∧
    (CheckoutSession.UnmarshalJSON ParseID jsonUnmarshal CheckoutSession.zero data).2.ID = id ∧
    (CheckoutSession.UnmarshalJSON ParseID jsonUnmarshal CheckoutSession.zero data).2.nonIDZero := by
  simp [CheckoutSession.UnmarshalJSON, h, CheckoutSession.sameExceptID,
    CheckoutSession.nonIDZero, CheckoutSession.zero]

/-- C1 at the input `"cs"` (with its quotes) and a target that held other
data. -/
theorem unmarshalJSON_bare_id_witness :
    ParseID [0x22, 0x63, 0x73, 0x22] = ([0x63, 0x73], true) ∧
    (CheckoutSession.UnmarshalJSON ParseID sampleUnmarshal sampleSession
      [0x22, 0x63, 0x73, 0x22]).2.ID = [0x63, 0x73] ∧
    (CheckoutSession.UnmarshalJSON ParseID sampleUnmarshal sampleSession
      [0x22, 0x63, 0x73, 0x22]).2.Livemode = true :=
  have h : ParseID [0x22, 0x63, 0x73, 0x22] = ([0x63, 0x73], true) := by decide
  have t := unmarshalJSON_bare_id ParseID sampleUnmarshal sampleSession
    [0x22, 0x63, 0x73, 0x22] [0x63, 0x73] h
  ⟨h, t.2.1, t.2.2.1.2.2.2.2.2.2.1⟩

/-- C2: when `ParseID` fails on `data` and the plain JSON decode of `data` into
a zero-valued shadow struct succeeds with value `v`, `UnmarshalJSON` returns no
error and the target afterwards is `v`, whatever it held before. -/
theorem unmarshalJSON_expanded
    (ParseID : Bytes → GoString × Bool)
    (jsonUnmarshal : Bytes →
      session Customer PaymentIntent SetupIntent Subscription Plan SKU →
      Option Err × session Customer PaymentIntent SetupIntent Subscription Plan SKU)
    (p : CheckoutSession Customer PaymentIntent SetupIntent Subscription Plan SKU)
    (data : Bytes)
    (v : session Customer PaymentIntent SetupIntent Subscription Plan SKU)
    (hid : (ParseID data).2 = false)
    (hjson : jsonUnmarshal data CheckoutSession.zero = (none, v)) :
    CheckoutSession.UnmarshalJSON ParseID jsonUnmarshal p data = (none, v) := by
  rcases hp : ParseID data with ⟨id, ok⟩
  rw [hp] at hid
  simp only at hid
  subst hid
  simp [CheckoutSession.UnmarshalJSON, hp, hjson]

/-- C2 at the input `{"livemode":true}` and a target that held other data: the
identifier, the customer and the mode the target held are gone. -/
theorem unmarshalJSON_expanded_witness :
    CheckoutSession.UnmarshalJSON ParseID sampleUnmarshal sampleSession
      [0x7b, 0x22, 0x6c, 0x69, 0x76, 0x65, 0x6d, 0x6f, 0x64, 0x65, 0x22, 0x3a,
        0x74, 0x72, 0x75, 0x65, 0x7d]
      = (none, { (CheckoutSession.zero : CheckoutSession Unit Unit Unit Unit Unit Unit) with
                  Livemode := true }) :=
  unmarshalJSON_expanded ParseID sampleUnmarshal sampleSession _ _ (by decide) (by rfl)

/-- C3: `UnmarshalJSON` fails exactly when `ParseID(data)` fails and the JSON
decode of `data` into the shadow struct fails; the error it returns is then
the error of that decode, and the target is left as it was. -/
theorem unmarshalJSON_error
    (ParseID : Bytes → GoString × Bool)
    (jsonUnmarshal : Bytes →
      session Customer PaymentIntent SetupIntent Subscription Plan SKU →
      Option Err × session Customer PaymentIntent SetupIntent Subscription Plan SKU)
    (p : CheckoutSession Customer PaymentIntent SetupIntent Subscription Plan SKU)
    (data : Bytes) :
    ((CheckoutSession.UnmarshalJSON ParseID jsonUnmarshal p data).1 ≠ none ↔
      ((ParseID data).2 = false ∧ (jsonUnmarshal data CheckoutSession.zero).1 ≠ none)) ∧
    ((CheckoutSession.UnmarshalJSON ParseID jsonUnmarshal p data).1 ≠ none →
      (CheckoutSession.UnmarshalJSON ParseID jsonUnmarshal p data).1
          = (jsonUnmarshal data CheckoutSession.zero).1 ∧
      (CheckoutSession.UnmarshalJSON ParseID jsonUnmarshal p data).2 = p) := by
  rcases hp : ParseID data with ⟨id, ok⟩
  rcases hj : jsonUnmarshal data CheckoutSession.zero with ⟨err, v⟩
  cases ok <;> cases err <;> simp [CheckoutSession.UnmarshalJSON, hp, hj]

/-- C3 at the input `x`, which neither is a quoted identifier nor decodes: the
error is the decoder's and the target keeps what it held. -/
theorem unmarshalJSON_error_witness :
    CheckoutSession.UnmarshalJSON ParseID sampleUnmarshal sampleSession [0x78]
      = (some "invalid", sampleSession) ∧
    (sampleUnmarshal [0x78] CheckoutSession.zero).1 = some "invalid" :=
  have t := unmarshalJSON_error ParseID sampleUnmarshal sampleSession [0x78]
  have hne : (CheckoutSession.UnmarshalJSON ParseID sampleUnmarshal sampleSession [0x78]).1
      ≠ none := t.1.2 ⟨by decide, by decide⟩
  ⟨Prod.ext ((t.2 hne).1.trans rfl) (t.2 hne).2, rfl⟩

/-- C10 fails as stated: decoding the input `""` (an empty quoted identifier)
into a zero-valued `CheckoutSession` succeeds, whatever the JSON decoder is,
and the result is in neither state: its `ID` is empty and every other field is
zero-valued. -/
theorem unmarshalJSON_states_counterexample :
    CheckoutSession.UnmarshalJSON ParseID sampleUnmarshal CheckoutSession.zero [0x22, 0x22]
      = (none, CheckoutSession.zero) ∧
    ¬ (CheckoutSession.zero : CheckoutSession Unit Unit Unit Unit Unit Unit).bareIDState ∧
    ¬ (CheckoutSession.zero : CheckoutSession Unit Unit Unit Unit Unit Unit).expandedState := by
  refine ⟨rfl, ?_, ?_⟩
  · simp [CheckoutSession.bareIDState, CheckoutSession.zero]
  · simp [CheckoutSession.expandedState, CheckoutSession.nonIDZero, CheckoutSession.zero]

/-- C10 as amended: for every input on which `UnmarshalJSON` succeeds when
decoding into a zero-valued `CheckoutSession`, the bare-ID state and the
expanded state never hold together; if `ParseID` succeeded with `id` the result
has `ID = id` and every other field zero-valued, which is the bare-ID state
when `id` is not empty; if `ParseID` failed the result is the decoded shadow
value, which is in the expanded state when some field other than `ID` is not
zero-valued; and one of the two states holds exactly when the result is not
the zero value. -/
theorem unmarshalJSON_states
    (ParseID : Bytes → GoString × Bool)
    (jsonUnmarshal : Bytes →
      session Customer PaymentIntent SetupIntent Subscription Plan SKU →
      Option Err × session Customer PaymentIntent SetupIntent Subscription Plan SKU)
    (data : Bytes)
    (r : CheckoutSession Customer PaymentIntent SetupIntent Subscription Plan SKU)
    (h : CheckoutSession.UnmarshalJSON ParseID jsonUnmarshal CheckoutSession.zero data
      = (none, r)) :
    ¬ (r.bareIDState ∧ r.expandedState) ∧
    (∀ id, ParseID data = (id, true) →
      r.ID = id ∧ r.nonIDZero ∧ (id ≠ [] → r.bareIDState ∧ ¬ r.expandedState)) ∧
    ((ParseID data).2 = false →
      jsonUnmarshal data CheckoutSession.zero = (none, r) ∧
      (¬ r.nonIDZero → r.expandedState ∧ ¬ r.bareIDState)) ∧
    ((r.bareIDState ∨ r.expandedState) ↔ r ≠ CheckoutSession.zero) := by
  refine ⟨?_, ?_, ?_, ?_⟩
  · rintro ⟨hb, he⟩
    exact he hb.2
  · intro id hp
    have hr : r = { (CheckoutSession.zero :
        CheckoutSession Customer PaymentIntent SetupIntent Subscription Plan SKU) with ID := id } := by
      simp only [CheckoutSession.UnmarshalJSON, hp] at h
      exact (Prod.mk.inj h).2.symm
    subst hr
    refine ⟨rfl, ?_, ?_⟩
    · simp [CheckoutSession.nonIDZero, CheckoutSession.zero]
    · intro hne
      simp [CheckoutSession.bareIDState, CheckoutSession.expandedState,
        CheckoutSession.nonIDZero, CheckoutSession.zero, hne]
  · intro hp
    rcases hp' : ParseID data with ⟨id, ok⟩
    rw [hp'] at hp
    simp only at hp
    subst hp
    rcases hj : jsonUnmarshal data CheckoutSession.zero with ⟨err, v⟩
    cases err with
    | some e => simp [CheckoutSession.UnmarshalJSON, hp', hj] at h
    | none =>
      simp only [CheckoutSession.UnmarshalJSON, hp', hj] at h
      have hv : v = r := (Prod.mk.inj h).2
      subst hv
      refine ⟨rfl, ?_⟩
      intro hnz
      exact ⟨hnz, fun hb => hnz hb.2⟩
  · have hz : r = CheckoutSession.zero ↔ (r.ID = [] ∧ r.nonIDZero) := by
      cases r
      simp only [CheckoutSession.zero, CheckoutSession.nonIDZero, CheckoutSession.mk.injEq]
      tauto
    rw [Ne, hz]
    simp only [CheckoutSession.bareIDState, CheckoutSession.expandedState]
    tauto

/-- C10 as amended, at the input `"cs"`: the result is in the bare-ID state. -/
theorem unmarshalJSON_states_witness :
    CheckoutSession.UnmarshalJSON ParseID sampleUnmarshal CheckoutSession.zero
        [0x22, 0x63, 0x73, 0x22]
      = (none, { (CheckoutSession.zero : CheckoutSession Unit Unit Unit Unit Unit Unit) with
                  ID := [0x63, 0x73] }) ∧
    ({ (CheckoutSession.zero : CheckoutSession Unit Unit Unit Unit Unit Unit) with
        ID := [0x63, 0x73] }).bareIDState :=
  have h : CheckoutSession.UnmarshalJSON ParseID sampleUnmarshal CheckoutSession.zero
        [0x22, 0x63, 0x73, 0x22]
      = (none, { (CheckoutSession.zero : CheckoutSession Unit Unit Unit Unit Unit Unit) with
                  ID := [0x63, 0x73] }) := rfl
  ⟨h, ((unmarshalJSON_states ParseID sampleUnmarshal _ _ h).2.1 [0x63, 0x73] (by decide)).2.2
    (by decide) |>.1⟩

end UnmarshalJSONTheorems

/-! ## Theorems: `orderreturn.Client.Get` and the page fetch of `Client.List` -/

namespace orderreturn

section ClientTheorems

variable {σ ε ρ Params ListParams : Type}

/-- C4: `Client.Get` makes exactly one backend `Call`, with method GET, the
path `FormatURLPath("/v1/order_returns/%s", id)`, the client's own key and the
caller's params as they are; the error it returns is the error of that call.
On a recording backend the log grows by that one record and nothing else; on
any backend the result is the target, the error and the state that one call
leaves. -/
theorem get_one_call [Zero ρ] (FormatURLPath : String → List String → String)
    (B : Backend σ ε ρ Params ListParams) (key id : String) (params : Option Params)
    (s : σ) (log : List (CallRecord Params ListParams)) :
    Client.Get FormatURLPath ⟨B.recorded, key⟩ id params (s, log) =
      ((some (B.Call "GET" (FormatURLPath "/v1/order_returns/%s" [id]) key params 0 s).2.1,
        (B.Call "GET" (FormatURLPath "/v1/order_returns/%s" [id]) key params 0 s).1),
       ((B.Call "GET" (FormatURLPath "/v1/order_returns/%s" [id]) key params 0 s).2.2,
        log ++ [CallRecord.call "GET" (FormatURLPath "/v1/order_returns/%s" [id]) key params])) ∧
    Client.Get FormatURLPath ⟨B, key⟩ id params s =
      ((some (B.Call "GET" (FormatURLPath "/v1/order_returns/%s" [id]) key params 0 s).2.1,
        (B.Call "GET" (FormatURLPath "/v1/order_returns/%s" [id]) key params 0 s).1),
       (B.Call "GET" (FormatURLPath "/v1/order_returns/%s" [id]) key params 0 s).2.2) := by
  constructor <;> rfl

/-- C5: when the backend's `Call` returns an error and leaves the result target
as it was, `Client.Get` returns that (non-nil) error together with a non-nil
pointer to a zero-valued `OrderReturn`; and whatever the backend does, the
pointer `Get` returns is not nil. -/
theorem get_error_zero [Zero ρ] (FormatURLPath : String → List String → String)
    (c : Client σ ε ρ Params ListParams) (id : String) (params : Option Params) (s : σ) :
    (∀ (e : ε) (s' : σ),
      c.B.Call "GET" (FormatURLPath "/v1/order_returns/%s" [id]) c.Key params 0 s
        = (some e, 0, s') →
      Client.Get FormatURLPath c id params s = ((some 0, some e), s')) ∧
    (Client.Get FormatURLPath c id params s).1.1 ≠ none := by
  constructor
  · intro e s' h
    simp [Client.Get, MethodGet, h]
  · simp [Client.Get]

/-- C5 on a backend that reports every identifier as missing. -/
theorem get_error_zero_witness :
    Client.Get sampleFormatURLPath
        (⟨failingBackend Unit Unit ([] : List SampleOrderReturn) "resource_missing", "sk_test"⟩ :
          Client Nat String SampleOrderReturn Unit Unit)
        "orret_404" none 0
      = ((some { ID := "", Amount := 0 }, some "resource_missing"), 0) :=
  (get_error_zero sampleFormatURLPath
    (⟨failingBackend Unit Unit ([] : List SampleOrderReturn) "resource_missing", "sk_test"⟩ :
      Client Nat String SampleOrderReturn Unit Unit)
    "orret_404" none 0).1 "resource_missing" 0 rfl

/-- C6: one invocation of the page-fetch function of `Client.List` makes exactly
one backend `CallRaw`, with method GET, path `/v1/order_returns`, the client's
key and the form values and params it was given; it returns as many items as
the decoded list has data, item `i` being `data[i]`, the decoded list's
`ListMeta`, and the error `CallRaw` returned, nil or not. -/
theorem listQuery_one_call (B : Backend σ ε ρ Params ListParams) (key : String)
    (p : Option ListParams) (b : Values) (s : σ) (log : List (CallRecord Params ListParams)) :
    (Client.listQuery ⟨B.recorded, key⟩ p b (s, log)).2 =
      ((B.CallRaw "GET" "/v1/order_returns" key b p OrderReturnList.zero s).2.2,
       log ++ [CallRecord.callRaw "GET" "/v1/order_returns" key b p]) ∧
    (Client.listQuery ⟨B.recorded, key⟩ p b (s, log)).1 =
      (Client.listQuery ⟨B, key⟩ p b s).1 ∧
    (Client.listQuery ⟨B, key⟩ p b s).2 =
      (B.CallRaw "GET" "/v1/order_returns" key b p OrderReturnList.zero s).2.2 ∧
    (Client.listQuery ⟨B, key⟩ p b s).1.1.length =
      (B.CallRaw "GET" "/v1/order_returns" key b p OrderReturnList.zero s).2.1.Data.length ∧
    (∀ i : Nat, (Client.listQuery ⟨B, key⟩ p b s).1.1[i]? =
      ((B.CallRaw "GET" "/v1/order_returns" key b p OrderReturnList.zero s).2.1.Data[i]?).map
        Iface.orderReturn) ∧
    (Client.listQuery ⟨B, key⟩ p b s).1.2.1 =
      (B.CallRaw "GET" "/v1/order_returns" key b p OrderReturnList.zero s).2.1.ListMeta ∧
    (Client.listQuery ⟨B, key⟩ p b s).1.2.2 =
      (B.CallRaw "GET" "/v1/order_returns" key b p OrderReturnList.zero s).1 := by
  refine ⟨rfl, rfl, rfl, ?_, ?_, rfl, rfl⟩
  · simp [Client.listQuery, MethodGet]
  · intro i
    simp [Client.listQuery, MethodGet]

/-- C9 fails as stated: on the iterator `Client.List` returns, before any call
of `Next`, `Current()` is the nil interface and `OrderReturn()` panics; it does
so as well after the only `Next` of an empty listing has returned false, and
whenever `Current()` holds a value of another type. -/
theorem orderReturn_accessor_counterexample :
    Iter.OrderReturn
        (Client.List sampleItemID (⟨mockBackend String SampleOrderReturn Unit Unit, "sk_test"⟩ :
          Client (List (List SampleOrderReturn)) String SampleOrderReturn Unit Unit) ⟨none, []⟩)
      = Except.error Panic.interfaceConversion ∧
    ((Client.List sampleItemID (⟨mockBackend String SampleOrderReturn Unit Unit, "sk_test"⟩ :
          Client (List (List SampleOrderReturn)) String SampleOrderReturn Unit Unit)
          ⟨none, []⟩).Iter.Next []).1 = false ∧
    Iter.OrderReturn ⟨((Client.List sampleItemID
        (⟨mockBackend String SampleOrderReturn Unit Unit, "sk_test"⟩ :
          Client (List (List SampleOrderReturn)) String SampleOrderReturn Unit Unit)
          ⟨none, []⟩).Iter.Next []).2.1⟩
      = Except.error Panic.interfaceConversion ∧
    Iter.OrderReturn
        (⟨{ (Client.List sampleItemID
              (⟨mockBackend String SampleOrderReturn Unit Unit, "sk_test"⟩ :
                Client (List (List SampleOrderReturn)) String SampleOrderReturn Unit Unit)
              ⟨none, []⟩).Iter with cur := Iface.other "string" }⟩ :
          orderreturn.Iter (List (List SampleOrderReturn)) String SampleOrderReturn Unit)
      = Except.error Panic.interfaceConversion :=
  ⟨rfl, rfl, rfl, rfl⟩

/-- C9 as amended: for every backend behaviour `Client.Get` and the page fetch of
`Client.List` finish by returning the backend's error as a value; the accessor
`Iter.OrderReturn()` returns without panicking exactly when `Current()` holds a
`*OrderReturn`, which it then returns; when `Current()` is the nil interface or
holds a value of another type, it panics on the failed type assertion. -/
theorem no_uncontrolled_fault [Zero ρ] (FormatURLPath : String → List String → String)
    (c : Client σ ε ρ Params ListParams) (id : String) (params : Option Params)
    (p : Option ListParams) (b : Values) (s : σ) (i : orderreturn.Iter σ ε ρ ListParams) :
    (Client.Get FormatURLPath c id params s).1.2 =
      (c.B.Call "GET" (FormatURLPath "/v1/order_returns/%s" [id]) c.Key params 0 s).1 ∧
    (c.listQuery p b s).1.2.2 =
      (c.B.CallRaw "GET" "/v1/order_returns" c.Key b p OrderReturnList.zero s).1 ∧
    (∀ r, i.Iter.Current = Iface.orderReturn r → Iter.OrderReturn i = Except.ok r) ∧
    ((∃ r, Iter.OrderReturn i = Except.ok r) ↔ ∃ r, i.Iter.Current = Iface.orderReturn r) ∧
    (i.Iter.Current = Iface.nil →
      Iter.OrderReturn i = Except.error Panic.interfaceConversion) ∧
    (∀ t, i.Iter.Current = Iface.other t →
      Iter.OrderReturn i = Except.error Panic.interfaceConversion) := by
  refine ⟨rfl, rfl, ?_, ?_, ?_, ?_⟩
  · intro r h
    simp [Iter.OrderReturn, h]
  · cases h : i.Iter.Current <;> simp [Iter.OrderReturn, h]
  · intro h
    simp [Iter.OrderReturn, h]
  · intro t h
    simp [Iter.OrderReturn, h]

/-- C9 as amended, on an iterator whose current item is an order return: the
accessor returns it. -/
theorem no_uncontrolled_fault_witness :
    Iter.OrderReturn
        (⟨{ (Client.List sampleItemID
              (⟨mockBackend String SampleOrderReturn Unit Unit, "sk_test"⟩ :
                Client (List (List SampleOrderReturn)) String SampleOrderReturn Unit Unit)
              ⟨none, []⟩).Iter with cur := Iface.orderReturn (some ⟨"orret_1", 10⟩) }⟩ :
          orderreturn.Iter (List (List SampleOrderReturn)) String SampleOrderReturn Unit)
      = Except.ok (some ⟨"orret_1", 10⟩) :=
  (no_uncontrolled_fault sampleFormatURLPath
    (⟨mockBackend String SampleOrderReturn Unit Unit, "sk_test"⟩ :
      Client (List (List SampleOrderReturn)) String SampleOrderReturn Unit Unit)
    "orret_1" none none [] [] _).2.2.1 (some ⟨"orret_1", 10⟩) rfl

end ClientTheorems

/-! ## Theorems: the iterator of `Client.List` -/

section IterTheorems

variable {σ ε ρ Params ListParams : Type}

/-- With an unread item in memory `Next` advances to it and returns true,
without any fetch. -/
theorem next_item (it : Stripe.Iter σ ε ρ ListParams) (s : σ)
    (v : Iface ρ) (rest : List (Iface ρ))
    (hst : it.state = IterState.ready) (hv : it.values = v :: rest) :
    it.Next s = (true, { it with cur := v, values := rest, state := IterState.ready }, s) := by
  simp [Stripe.Iter.Next, hst, hv]

/-- With no unread item and no more data announced `Next` becomes exhausted and
returns false. -/
theorem next_exhausted (it : Stripe.Iter σ ε ρ ListParams) (s : σ)
    (hst : it.state = IterState.ready) (hv : it.values = []) (hm : it.more = false) :
    it.Next s = (false, { it with state := IterState.exhausted }, s) := by
  simp [Stripe.Iter.Next, hst, hv, hm]

/-- With no unread item and more data announced `Next` fetches a page; when the
page has items it advances to the first of them and returns true. -/
theorem next_fetch_item (it : Stripe.Iter σ ε ρ ListParams) (s s' : σ)
    (v : Iface ρ) (rest : List (Iface ρ)) (listMeta : ListMeta)
    (hst : it.state = IterState.ready) (hv : it.values = []) (hm : it.more = true)
    (hq : it.query it.params it.fetchValues s = ((v :: rest, listMeta, none), s')) :
    it.Next s =
      (true, { it with cur := v, values := rest, more := listMeta.HasMore,
                       state := IterState.ready, formValues := it.fetchValues }, s') := by
  simp [Stripe.Iter.Next, hst, hv, hm, hq]

/-- With no unread item and more data announced `Next` fetches a page; when the
page is empty it returns false, exhausted if no more data is announced and
ready otherwise. -/
theorem next_fetch_empty (it : Stripe.Iter σ ε ρ ListParams) (s s' : σ) (listMeta : ListMeta)
    (hst : it.state = IterState.ready) (hv : it.values = []) (hm : it.more = true)
    (hq : it.query it.params it.fetchValues s = (([], listMeta, none), s')) :
    it.Next s =
      (false, { it with values := [], more := listMeta.HasMore,
                        state := if listMeta.HasMore then IterState.ready
                                 else IterState.exhausted,
                        formValues := it.fetchValues }, s') := by
  cases hh : listMeta.HasMore <;> simp [Stripe.Iter.Next, hst, hv, hm, hq, hh]

/-- With no unread item and more data announced `Next` fetches a page; when the
fetch fails it stores the error, becomes errored and returns false. -/
theorem next_fetch_error (it : Stripe.Iter σ ε ρ ListParams) (s s' : σ)
    (items : List (Iface ρ)) (listMeta : ListMeta) (e : ε)
    (hst : it.state = IterState.ready) (hv : it.values = []) (hm : it.more = true)
    (hq : it.query it.params it.fetchValues s = ((items, listMeta, some e), s')) :
    it.Next s =
      (false, { it with err := some e, state := IterState.errored,
                        formValues := it.fetchValues }, s') := by
  simp [Stripe.Iter.Next, hst, hv, hm, hq]

/-- One more call of `Next` in front of a run. -/
theorem run_step (n : Nat) (it it' : Stripe.Iter σ ε ρ ListParams) (s s' s'' : σ)
    (b : Bool) (obs : List (Observation ε ρ)) (i' : orderreturn.Iter σ ε ρ ListParams)
    (hn : it.Next s = (b, it', s'))
    (hr : Iter.run n ⟨it'⟩ s' = (obs, i', s'')) :
    Iter.run (n + 1) ⟨it⟩ s = (⟨b, it'.Err, Iter.OrderReturn ⟨it'⟩⟩ :: obs, i', s'') := by
  simp [Iter.run, hn, hr]

/-- A run of `m + n` calls is a run of `m` calls followed by a run of `n`. -/
theorem run_add (m n : Nat) :
    ∀ (i : orderreturn.Iter σ ε ρ ListParams) (s : σ),
      Iter.run (m + n) i s =
        ((Iter.run m i s).1 ++ (Iter.run n (Iter.run m i s).2.1 (Iter.run m i s).2.2).1,
         (Iter.run n (Iter.run m i s).2.1 (Iter.run m i s).2.2).2) := by
  induction m with
  | zero =>
    intro i s
    simp [Iter.run]
  | succ m ih =>
    intro i s
    rw [show m + 1 + n = (m + n) + 1 by omega]
    simp only [Iter.run]
    rw [ih]
    simp

/-- The current item after the unread items `vs` have been yielded one by one. -/
theorem foldl_last (x : ρ) (xs : List ρ) :
    xs.foldl (fun _ y => Iface.orderReturn (some y)) (Iface.orderReturn (some x))
      = Iface.orderReturn (some ((x :: xs).getLast (List.cons_ne_nil x xs))) := by
  induction xs generalizing x with
  | nil => rfl
  | cons y ys ih =>
    rw [List.foldl_cons, ih y]
    simp [List.getLast_cons]

/-- While unread items are in memory, `Next` returns true once for each of them
in order, without any fetch and without touching the stored error; the
iterator ends on the last of them with nothing unread. -/
theorem run_values (vs : List ρ) :
    ∀ (it : Stripe.Iter σ ε ρ ListParams) (s : σ),
      it.state = IterState.ready →
      it.values = (vs.map some).map Iface.orderReturn →
      Iter.run vs.length ⟨it⟩ s =
        (vs.map (fun x => ⟨true, it.err, Except.ok (some x)⟩),
         ⟨{ it with cur := vs.foldl (fun _ y => Iface.orderReturn (some y)) it.cur,
                    values := [], state := IterState.ready }⟩, s) := by
  induction vs with
  | nil =>
    intro it s hst hv
    cases it
    simp only [List.map_nil] at hv
    simp only at hst
    subst hst
    subst hv
    rfl
  | cons x xs ih =>
    intro it s hst hv
    have hn := next_item it s (Iface.orderReturn (some x))
      ((xs.map some).map Iface.orderReturn) hst hv
    rw [List.length_cons, run_step _ it _ s s s true _ _ hn (ih _ s rfl rfl)]
    simp [Stripe.Iter.Err, Iter.OrderReturn, Stripe.Iter.Current]

/-- The page fetch of `Client.List` returns what the one `CallRaw` it makes
wrote and returned. -/
theorem listQuery_of_callRaw (B : Backend σ ε ρ Params ListParams) (key : String)
    (p : Option ListParams) (b : Values) (s s' : σ) (err : Option ε) (l : OrderReturnList ρ)
    (h : B.CallRaw "GET" "/v1/order_returns" key b p OrderReturnList.zero s = (err, l, s')) :
    Client.listQuery ⟨B, key⟩ p b s = ((l.Data.map Iface.orderReturn, l.ListMeta, err), s') := by
  simp [Client.listQuery, MethodGet, h]

/-- After the items of the page `x :: xs` have been yielded, the next fetch
carries the identifier of the last of them as cursor. -/
theorem fetchValues_next (idOf : ρ → String) (it : Stripe.Iter σ ε ρ ListParams)
    (x : ρ) (xs : List ρ)
    (hid : it.itemID = listItemID idOf)
    (hc : it.cur = xs.foldl (fun _ y => Iface.orderReturn (some y)) (Iface.orderReturn (some x))) :
    it.fetchValues = nextValues idOf it.formValues (x :: xs) := by
  rw [foldl_last] at hc
  simp [Stripe.Iter.fetchValues, nextValues, hid, hc, listItemID,
    List.getLast?_eq_getLast _ (List.cons_ne_nil x xs)]

/-- A last call of `Next` that returns false with no error stored. -/
theorem run_last (it it' : Stripe.Iter σ ε ρ ListParams) (s s' : σ)
    (hn : it.Next s = (false, it', s')) (herr : it'.err = none) :
    Iter.run 1 ⟨it⟩ s = ([⟨false, none, Iter.OrderReturn ⟨it'⟩⟩], ⟨it'⟩, s') := by
  rw [run_step 0 it it' s s' s' false [] _ hn rfl]
  simp [Stripe.Iter.Err, herr]

/-- A fetch that returns the page `x :: xs`, followed by the calls of `Next` that
yield its items: `Next` returns true once for each item, in order and with no
error, and the iterator ends ready with nothing unread, the more-data mark as
the fetch announced it, and the identifier of the last item as the cursor of
its next fetch. -/
theorem run_page (idOf : ρ → String) (it : Stripe.Iter σ ε ρ ListParams) (s s' : σ)
    (x : ρ) (xs : List ρ) (listMeta : ListMeta)
    (hst : it.state = IterState.ready) (herr : it.err = none)
    (hv : it.values = []) (hm : it.more = true) (hid : it.itemID = listItemID idOf)
    (hq : it.query it.params it.fetchValues s =
      ((((x :: xs).map some).map Iface.orderReturn, listMeta, none), s')) :
    ∃ it2 : Stripe.Iter σ ε ρ ListParams,
      it2.state = IterState.ready ∧ it2.err = none ∧ it2.values = [] ∧
      it2.more = listMeta.HasMore ∧ it2.query = it.query ∧ it2.itemID = listItemID idOf ∧
      it2.params = it.params ∧
      it2.fetchValues = nextValues idOf it.fetchValues (x :: xs) ∧
      ∀ n, Iter.run ((x :: xs).length + n) ⟨it⟩ s =
        ((x :: xs).map (fun y => ⟨true, none, Except.ok (some y)⟩) ++ (Iter.run n ⟨it2⟩ s').1,
         (Iter.run n ⟨it2⟩ s').2) := by
  refine ⟨{ it with cur := xs.foldl (fun _ y => Iface.orderReturn (some y))
                              (Iface.orderReturn (some x)),
                    values := [], more := listMeta.HasMore, state := IterState.ready,
                    formValues := it.fetchValues },
    rfl, herr, rfl, rfl, rfl, hid, rfl, fetchValues_next idOf _ x xs hid rfl, ?_⟩
  intro n
  have hn := next_fetch_item it s s' (Iface.orderReturn (some x))
    ((xs.map some).map Iface.orderReturn) listMeta hst hv hm hq
  have hvals := run_values xs
    { it with cur := Iface.orderReturn (some x),
              values := (xs.map some).map Iface.orderReturn,
              more := listMeta.HasMore, state := IterState.ready,
              formValues := it.fetchValues } s' rfl rfl
  rw [show (x :: xs).length + n = (xs.length + n) + 1 by simp; omega]
  rw [run_step (xs.length + n) it _ s s' _ true _ _ hn
    (show Iter.run (xs.length + n) _ s' = (_, _, _) from rfl)]
  rw [run_add, hvals]
  simp [Stripe.Iter.Err, herr, Iter.OrderReturn, Stripe.Iter.Current]

/-- On a backend that serves the listing `page :: rest`, whose pages other than
the last are not empty, to an iterator about to fetch `page`: `Next` returns
true once for each item of the listing, in order and with no error, and false
after them with no error. -/
theorem run_serves (idOf : ρ → String) (B : Backend σ ε ρ Params ListParams) (key : String)
    (rest : List (List ρ)) :
    ∀ (page : List ρ) (it : Stripe.Iter σ ε ρ ListParams) (s : σ),
      it.state = IterState.ready → it.err = none → it.values = [] → it.more = true →
      it.query = Client.listQuery ⟨B, key⟩ → it.itemID = listItemID idOf →
      serves B key it.params idOf it.fetchValues s page rest →
      (∀ pg ∈ (page :: rest).dropLast, pg ≠ []) →
      ∃ last i' s', Iter.run ((page :: rest).flatten.length + 1) ⟨it⟩ s =
        ((page :: rest).flatten.map (fun y => ⟨true, none, Except.ok (some y)⟩)
          ++ [⟨false, none, last⟩], i', s') := by
  induction rest with
  | nil =>
    intro page it s hst herr hv hm hq hid hserve _
    obtain ⟨m, s', hcall, hmore⟩ := hserve
    have hq' := listQuery_of_callRaw B key it.params it.fetchValues s s' none _ hcall
    rw [← hq] at hq'
    cases page with
    | nil =>
      obtain ⟨it1, hn, herr1⟩ : ∃ it1, it.Next s = (false, it1, s') ∧ it1.err = none :=
        ⟨_, next_fetch_empty it s s' m hst hv hm hq', herr⟩
      exact ⟨Iter.OrderReturn ⟨it1⟩, ⟨it1⟩, s', run_last it it1 s s' hn herr1⟩
    | cons x xs =>
      obtain ⟨it2, hst2, herr2, hv2, hm2, _, _, _, _, hrun⟩ :=
        run_page idOf it s s' x xs m hst herr hv hm hid hq'
      obtain ⟨it3, hn, herr3⟩ : ∃ it3, it2.Next s' = (false, it3, s') ∧ it3.err = none :=
        ⟨_, next_exhausted it2 s' hst2 hv2 (hm2.trans hmore), herr2⟩
      refine ⟨Iter.OrderReturn ⟨it3⟩, ⟨it3⟩, s', ?_⟩
      rw [show ([x :: xs] : List (List ρ)).flatten = x :: xs by simp, hrun 1,
        run_last it2 it3 s' s' hn herr3]
  | cons next rest' ih =>
    intro page it s hst herr hv hm hq hid hserve hne
    obtain ⟨m, s', hcall, hmore, hrest⟩ := hserve
    have hq' := listQuery_of_callRaw B key it.params it.fetchValues s s' none _ hcall
    rw [← hq] at hq'
    cases page with
    | nil => exact absurd rfl (hne [] (by simp))
    | cons x xs =>
      obtain ⟨it2, hst2, herr2, hv2, hm2, hq2, hid2, hp2, hfv2, hrun⟩ :=
        run_page idOf it s s' x xs m hst herr hv hm hid hq'
      obtain ⟨last, i', s'', hr⟩ := ih next it2 s' hst2 herr2 hv2 (hm2.trans hmore)
        (hq2.trans hq) hid2 (by rw [hfv2, hp2]; exact hrest)
        (fun pg hpg => hne pg (by
          rw [List.dropLast_cons_of_ne_nil (List.cons_ne_nil _ _)]
          exact List.mem_cons_of_mem _ hpg))
      refine ⟨last, i', s'', ?_⟩
      rw [show ((x :: xs) :: next :: rest').flatten.length + 1 =
        (x :: xs).length + ((next :: rest').flatten.length + 1) by simp; omega, hrun, hr]
      simp

/-- C7 fails as stated: on the mock backend that serves three order returns
over the three pages `[1, 2]`, `[]`, `[3]`, the third call of `Next` returns
false; the third item comes on the fourth call. -/
theorem list_round_trip_counterexample :
    (Iter.run 4
        (Client.List sampleItemID (⟨mockBackend String SampleOrderReturn Unit Unit, "sk_test"⟩ :
          Client (List (List SampleOrderReturn)) String SampleOrderReturn Unit Unit) ⟨none, []⟩)
        [[⟨"orret_1", 10⟩, ⟨"orret_2", 20⟩], [], [⟨"orret_3", 30⟩]]).1.map
      (fun o => (o.next, o.err, o.current))
      = [(true, none, Except.ok (some ⟨"orret_1", 10⟩)),
         (true, none, Except.ok (some ⟨"orret_2", 20⟩)),
         (false, none, Except.ok (some ⟨"orret_2", 20⟩)),
         (true, none, Except.ok (some ⟨"orret_3", 30⟩))] ∧
    serves (mockBackend String SampleOrderReturn Unit Unit) "sk_test" none SampleOrderReturn.ID []
      [[⟨"orret_1", 10⟩, ⟨"orret_2", 20⟩], [], [⟨"orret_3", 30⟩]]
      [⟨"orret_1", 10⟩, ⟨"orret_2", 20⟩] [[], [⟨"orret_3", 30⟩]] :=
  ⟨rfl, _, _, rfl, rfl, _, _, rfl, rfl, _, _, rfl, rfl⟩

/-- C7 as amended: on every backend that serves the listing `page :: rest`, with
`N` items in all, to the page fetches of the iterator `Client.List` returns,
and whose pages other than the last are not empty, the first `N` calls of
`Next` return true with `Err()` none, `OrderReturn()` reads the items of the
pages concatenated in the order the backend returned them, and call `N + 1`
returns false with `Err()` none.  When the first page is not empty the first
`Next` returns true, `Err()` is none and `OrderReturn()` is the first item, not
nil. -/
theorem list_round_trip (idOf : ρ → String) (B : Backend σ ε ρ Params ListParams)
    (key : String) (listParams : ListParamsContainer ListParams)
    (page : List ρ) (rest : List (List ρ)) (s0 : σ)
    (hserve : serves B key listParams.params idOf listParams.formValues s0 page rest)
    (hne : ∀ pg ∈ (page :: rest).dropLast, pg ≠ []) :
    (∃ last i' s',
      Iter.run ((page :: rest).flatten.length + 1)
          (Client.List (listItemID idOf) ⟨B, key⟩ listParams) s0 =
        ((page :: rest).flatten.map (fun y => ⟨true, none, Except.ok (some y)⟩)
          ++ [⟨false, none, last⟩], i', s')) ∧
    (∀ (x : ρ) (xs : List ρ), page = x :: xs →
      ((Client.List (listItemID idOf) ⟨B, key⟩ listParams).Iter.Next s0).1 = true ∧
      ((Client.List (listItemID idOf) ⟨B, key⟩ listParams).Iter.Next s0).2.1.Err = none ∧
      Iter.OrderReturn ⟨((Client.List (listItemID idOf) ⟨B, key⟩ listParams).Iter.Next s0).2.1⟩
        = Except.ok (some x)) := by
  constructor
  · exact run_serves idOf B key rest page
      (Client.List (listItemID idOf) ⟨B, key⟩ listParams).Iter s0 rfl rfl rfl rfl rfl rfl
      hserve hne
  · intro x xs hp
    subst hp
    have hcall : ∃ (m : ListMeta) (s' : σ),
        B.CallRaw "GET" "/v1/order_returns" key listParams.formValues listParams.params
          OrderReturnList.zero s0 = (none, { ListMeta := m, Data := (x :: xs).map some }, s') := by
      cases rest with
      | nil =>
        obtain ⟨m, s', h, _⟩ := hserve
        exact ⟨m, s', h⟩
      | cons next rest' =>
        obtain ⟨m, s', h, _⟩ := hserve
        exact ⟨m, s', h⟩
    obtain ⟨m, s', h⟩ := hcall
    have hq := listQuery_of_callRaw B key listParams.params listParams.formValues s0 s' none _ h
    have hn := next_fetch_item (Client.List (listItemID idOf) ⟨B, key⟩ listParams).Iter s0 s'
      (Iface.orderReturn (some x)) ((xs.map some).map Iface.orderReturn) m rfl rfl rfl hq
    rw [hn]
    exact ⟨rfl, rfl, rfl⟩

/-- C7 as amended, on the backend that pages by cursor over the two pages
`[1, 2]` and `[3]`: the second page is served to the request whose cursor is
the identifier of item 2. -/
theorem list_round_trip_witness :
    (∃ last i' s',
      Iter.run 4
          (Client.List (listItemID SampleOrderReturn.ID)
            (⟨cursorBackend Unit Unit SampleOrderReturn.ID
                [[⟨"orret_1", 10⟩, ⟨"orret_2", 20⟩], [⟨"orret_3", 30⟩]] none, "sk_test"⟩ :
              Client Nat String SampleOrderReturn Unit Unit) ⟨none, [("limit", "2")]⟩) 0 =
        ([⟨true, none, Except.ok (some ⟨"orret_1", 10⟩)⟩,
          ⟨true, none, Except.ok (some ⟨"orret_2", 20⟩)⟩,
          ⟨true, none, Except.ok (some ⟨"orret_3", 30⟩)⟩,
          ⟨false, none, last⟩], i', s')) ∧
    (Iter.run 4
          (Client.List (listItemID SampleOrderReturn.ID)
            (⟨cursorBackend Unit Unit SampleOrderReturn.ID
                [[⟨"orret_1", 10⟩, ⟨"orret_2", 20⟩], [⟨"orret_3", 30⟩]] none, "sk_test"⟩ :
              Client Nat String SampleOrderReturn Unit Unit) ⟨none, [("limit", "2")]⟩) 0).2.2
      = 2 :=
  ⟨(list_round_trip SampleOrderReturn.ID
      (cursorBackend Unit Unit SampleOrderReturn.ID
        [[⟨"orret_1", 10⟩, ⟨"orret_2", 20⟩], [⟨"orret_3", 30⟩]] none)
      "sk_test" ⟨none, [("limit", "2")]⟩
      [⟨"orret_1", 10⟩, ⟨"orret_2", 20⟩] [[⟨"orret_3", 30⟩]] 0
      ⟨_, _, rfl, rfl, _, _, rfl, rfl⟩ (by simp)).1, rfl⟩

/-- C8 fails as stated: on the backend that serves an empty page 1 with
`has_more` set and fails on the fetch of page 2, the call of `Next` that follows
the (no) items of page 1 returns false, yet `Err()` is none afterwards; the
fetch of page 2 is made by the call after it. -/
theorem list_error_propagation_counterexample :
    (Iter.run 1
        (Client.List sampleItemID
          (⟨failingBackend Unit Unit ([] : List SampleOrderReturn) "timeout", "sk_test"⟩ :
            Client Nat String SampleOrderReturn Unit Unit) ⟨none, []⟩) 0).1.map
      (fun o => (o.next, o.err)) = [(false, none)] ∧
    (Iter.run 1
        (Client.List sampleItemID
          (⟨failingBackend Unit Unit ([] : List SampleOrderReturn) "timeout", "sk_test"⟩ :
            Client Nat String SampleOrderReturn Unit Unit) ⟨none, []⟩) 0).2.1.Iter.Err = none ∧
    (failingBackend Unit Unit ([] : List SampleOrderReturn) "timeout").CallRaw
        "GET" "/v1/order_returns" "sk_test" [] none OrderReturnList.zero 0
      = (none, { ListMeta := { HasMore := true, TotalCount := 0, URL := "/v1/order_returns" },
                 Data := [] }, 1) ∧
    (failingBackend Unit Unit ([] : List SampleOrderReturn) "timeout").CallRaw
        "GET" "/v1/order_returns" "sk_test" [] none OrderReturnList.zero 1
      = (some "timeout", OrderReturnList.zero, 2) :=
  ⟨rfl, rfl, rfl, rfl⟩

/-- C8 as amended: on every backend that answers the first page fetch of the
iterator `Client.List` returns with page 1 and `has_more` set, and fails with
`e` on the fetch of page 2 (the request whose cursor is the last item of
page 1).  When page 1 is not empty, `Next` returns true once for each item of
page 1, in order and with no error, the call after them returns false, and
`Err()` is `e` afterwards.  When page 1 is empty, the first call of `Next`
returns false with `Err()` none, and the second call, which fetches page 2,
returns false with `Err()` equal to `e`. -/
theorem list_error_propagation (idOf : ρ → String)
    (B : Backend σ ε ρ Params ListParams) (key : String)
    (listParams : ListParamsContainer ListParams)
    (page1 : List ρ) (meta1 : ListMeta) (e : ε) (l2 : OrderReturnList ρ) (s0 s1 s2 : σ)
    (h1 : B.CallRaw "GET" "/v1/order_returns" key listParams.formValues listParams.params
        OrderReturnList.zero s0
      = (none, { ListMeta := meta1, Data := page1.map some }, s1))
    (hmore : meta1.HasMore = true)
    (h2 : B.CallRaw "GET" "/v1/order_returns" key
        (nextValues idOf listParams.formValues page1) listParams.params
        OrderReturnList.zero s1
      = (some e, l2, s2)) :
    (page1 ≠ [] →
      ∃ last i',
        Iter.run (page1.length + 1) (Client.List (listItemID idOf) ⟨B, key⟩ listParams) s0 =
          (page1.map (fun y => ⟨true, none, Except.ok (some y)⟩) ++ [⟨false, some e, last⟩],
            i', s2) ∧
        i'.Iter.Err = some e) ∧
    (page1 = [] →
      ∃ first last i',
        Iter.run 2 (Client.List (listItemID idOf) ⟨B, key⟩ listParams) s0 =
          ([⟨false, none, first⟩, ⟨false, some e, last⟩], i', s2) ∧
        i'.Iter.Err = some e) := by
  have hq1 := listQuery_of_callRaw B key listParams.params listParams.formValues s0 s1 none _ h1
  constructor
  · intro hne
    obtain ⟨x, xs, rfl⟩ := List.exists_cons_of_ne_nil hne
    obtain ⟨it2, hst2, _, hv2, hm2, hq2, _, hp2, hfv2, hrun⟩ :=
      run_page idOf (Client.List (listItemID idOf) ⟨B, key⟩ listParams).Iter s0 s1 x xs meta1
        rfl rfl rfl rfl rfl hq1
    have hq2' := listQuery_of_callRaw B key listParams.params
      (nextValues idOf listParams.formValues (x :: xs)) s1 s2 (some e) _ h2
    obtain ⟨it3, hn, herr3⟩ : ∃ it3, it2.Next s1 = (false, it3, s2) ∧ it3.err = some e :=
      ⟨_, next_fetch_error it2 s1 s2 _ _ e hst2 hv2 (hm2.trans hmore)
        (by rw [hq2, hfv2, hp2]; exact hq2'), rfl⟩
    refine ⟨Iter.OrderReturn ⟨it3⟩, ⟨it3⟩, ?_, herr3⟩
    rw [hrun 1, run_step 0 it2 it3 s1 s2 s2 false [] _ hn rfl]
    simp [Stripe.Iter.Err, herr3]
  · intro hnil
    subst hnil
    obtain ⟨it1, hn1, hst1, herr1, hv1, hm1, hq1', hfv1⟩ :
        ∃ it1, (Client.List (listItemID idOf) ⟨B, key⟩ listParams).Iter.Next s0 = (false, it1, s1) ∧
          it1.state = IterState.ready ∧ it1.err = none ∧ it1.values = [] ∧ it1.more = true ∧
          it1.query it1.params = Client.listQuery ⟨B, key⟩ listParams.params ∧
          it1.fetchValues = listParams.formValues :=
      ⟨_, next_fetch_empty (Client.List (listItemID idOf) ⟨B, key⟩ listParams).Iter s0 s1 meta1
        rfl rfl rfl hq1, by simp [hmore], rfl, rfl, hmore, rfl, rfl⟩
    have hq2' := listQuery_of_callRaw B key listParams.params
      (nextValues idOf listParams.formValues []) s1 s2 (some e) _ h2
    obtain ⟨it3, hn, herr3⟩ : ∃ it3, it1.Next s1 = (false, it3, s2) ∧ it3.err = some e :=
      ⟨_, next_fetch_error it1 s1 s2 _ _ e hst1 hv1 hm1
        (by rw [hq1', hfv1]; exact hq2'), rfl⟩
    refine ⟨Iter.OrderReturn ⟨it1⟩, Iter.OrderReturn ⟨it3⟩, ⟨it3⟩, ?_, herr3⟩
    rw [run_step 1 _ it1 s0 s1 s2 false _ _ hn1
      (run_step 0 it1 it3 s1 s2 s2 false [] _ hn rfl)]
    simp [Stripe.Iter.Err, herr1, herr3]

/-- C8 as amended, on the backend that pages by cursor and times out from its
second call on: two items are yielded, then the fetch with the cursor
`orret_2` fails. -/
theorem list_error_propagation_witness :
    ∃ last i',
      Iter.run 3
          (Client.List (listItemID SampleOrderReturn.ID)
            (⟨cursorBackend Unit Unit SampleOrderReturn.ID
                [[⟨"orret_1", 10⟩, ⟨"orret_2", 20⟩], [⟨"orret_3", 30⟩]] (some 1), "sk_test"⟩ :
              Client Nat String SampleOrderReturn Unit Unit) ⟨none, [("limit", "2")]⟩) 0 =
        ([⟨true, none, Except.ok (some ⟨"orret_1", 10⟩)⟩,
          ⟨true, none, Except.ok (some ⟨"orret_2", 20⟩)⟩,
          ⟨false, some "timeout", last⟩], i', 2) ∧
      i'.Iter.Err = some "timeout" :=
  (list_error_propagation SampleOrderReturn.ID
    (cursorBackend Unit Unit SampleOrderReturn.ID
      [[⟨"orret_1", 10⟩, ⟨"orret_2", 20⟩], [⟨"orret_3", 30⟩]] (some 1))
    "sk_test" ⟨none, [("limit", "2")]⟩
    [⟨"orret_1", 10⟩, ⟨"orret_2", 20⟩] ⟨true, 0, "/v1/order_returns"⟩ "timeout"
    OrderReturnList.zero 0 1 2 rfl rfl rfl).1 (by simp)

end IterTheorems

end orderreturn

end Stripe
